import Mathlib

/-!
Verification development for the CANopen-monitor core: a shallow embedding of
the frame classifier, liveness tracker, bus multiplexer and protocol
dispatcher found under `src/canopen_monitor`, together with theorems checking
the natural-language specification against the embedded code.
-/

namespace CanopenMonitor

/-! # Frame classifier (src/canopen_monitor/canmsgs/canmsg.py) -/

/-- The `MessageType` enum, members in source order (values 0–15).
The source spells `EMER` and `UKNOWN`; those names are kept. -/
inductive MessageType where
  | NMT
  | SYNC
  | TIME
  | EMER
  | PDO1_TX
  | PDO1_RX
  | PDO2_TX
  | PDO2_RX
  | PDO3_TX
  | PDO3_RX
  | PDO4_TX
  | PDO4_RX
  | SDO_TX
  | SDO_RX
  | HEARTBEAT
  | UKNOWN
  deriving DecidableEq, Repr

/-- `MessageType(i)`: enum construction from the numeric value, as used by
`cob_id_to_type` (`MessageType(i)` and `MessageType(15)`). Values outside
0–15 do not occur in the source's calls; they default to `UKNOWN` here only
to keep the function total. -/
def MessageType.ofValue : Nat → MessageType
  | 0 => .NMT
  | 1 => .SYNC
  | 2 => .TIME
  | 3 => .EMER
  | 4 => .PDO1_TX
  | 5 => .PDO1_RX
  | 6 => .PDO2_TX
  | 7 => .PDO2_RX
  | 8 => .PDO3_TX
  | 9 => .PDO3_RX
  | 10 => .PDO4_TX
  | 11 => .PDO4_RX
  | 12 => .SDO_TX
  | 13 => .SDO_RX
  | 14 => .HEARTBEAT
  | _ => .UKNOWN

/-- The `node_ranges` list local to `cob_id_to_type` (canmsg.py lines 36–50),
in the source's declared order.  Note the source writes `(0x100, 0x100)`
BEFORE `(0x80, 0x0FF)` (indices 2 and 3, i.e. TIME before EMER), and the
SDO_RX row is `(0x600, 0x680)` — upper bound 0x680, not 0x67F. -/
def node_ranges : List (Int × Int) :=
  [(0x0, 0x0),
   (0x1, 0x7F),
   (0x100, 0x100),
   (0x80, 0x0FF),
   (0x180, 0x1FF),
   (0x200, 0x27F),
   (0x280, 0x2FF),
   (0x300, 0x37F),
   (0x380, 0x3FF),
   (0x400, 0x47F),
   (0x480, 0x4FF),
   (0x500, 0x57F),
   (0x580, 0x5FF),
   (0x600, 0x680),
   (0x700, 0x7FF)]

/-- The `for i, range in enumerate(node_ranges)` loop of `cob_id_to_type`
(canmsg.py lines 54–56): return `MessageType(i)` for the first range with
`range[0] <= cob_id <= range[1]`; fall through otherwise. -/
def findType : List (Int × Int) → Nat → Int → MessageType
  | [], _, _ => MessageType.ofValue 15
  | r :: rs, i, cob_id =>
      if r.1 ≤ cob_id ∧ cob_id ≤ r.2 then MessageType.ofValue i
      else findType rs (i + 1) cob_id

/-- `MessageType.cob_id_to_type` (canmsg.py lines 24–59): scan `node_ranges`
in declared order, return the enum member at the index of the first matching
range, `MessageType(15)` (= `UKNOWN`) if none matches. -/
def MessageType.cob_id_to_type (cob_id : Int) : MessageType :=
  findType node_ranges 0 cob_id

/-- The attribute `MessageType.NODE_RANGES` read by `cob_id_to_node_id`
(canmsg.py line 74).  No assignment to `NODE_RANGES` exists anywhere in the
repository (`node_ranges` above is a LOCAL of `cob_id_to_type`), so the
attribute lookup fails at run time; `none` records the absent binding. -/
def NODE_RANGES : Option (List (Int × Int)) := none

/-- The `for range in MessageType.NODE_RANGES` loop body of
`cob_id_to_node_id` (canmsg.py lines 74–79): first matching range yields
`cob_id - range[0]`, no match yields Python `None`. -/
def findNodeId : List (Int × Int) → Int → Option Int
  | [], _ => none
  | r :: rs, cob_id =>
      if r.1 ≤ cob_id ∧ cob_id ≤ r.2 then some (cob_id - r.1)
      else findNodeId rs cob_id

/-- `MessageType.cob_id_to_node_id` (canmsg.py lines 61–79).  The body first
reads `MessageType.NODE_RANGES`; since that attribute is never defined, every
call raises `AttributeError` before the loop runs.  The embedding surfaces
the raise through `Except`; the loop translation (`findNodeId`) is kept for
the counterfactual in which the attribute existed. -/
def MessageType.cob_id_to_node_id (cob_id : Int) : Except String (Option Int) :=
  match NODE_RANGES with
  | none => .error "AttributeError: NODE_RANGES"
  | some rs => .ok (findNodeId rs cob_id)

/-- Modelled from the spec: Table 1 of section 4.2, row by row — the
claimed inclusive identifier ranges and their FunctionCodes. -/
def table1 : List (Int × Int × MessageType) :=
  [(0x000, 0x000, .NMT),
   (0x001, 0x07F, .SYNC),
   (0x080, 0x0FF, .EMER),
   (0x100, 0x100, .TIME),
   (0x180, 0x1FF, .PDO1_TX),
   (0x200, 0x27F, .PDO1_RX),
   (0x280, 0x2FF, .PDO2_TX),
   (0x300, 0x37F, .PDO2_RX),
   (0x380, 0x3FF, .PDO3_TX),
   (0x400, 0x47F, .PDO3_RX),
   (0x480, 0x4FF, .PDO4_TX),
   (0x500, 0x57F, .PDO4_RX),
   (0x580, 0x5FF, .SDO_TX),
   (0x600, 0x67F, .SDO_RX),
   (0x700, 0x7FF, .HEARTBEAT)]

/-- First-match lookup in a list of table rows; identifiers matching no row
map to `UKNOWN` ("Any identifier matching none → UNKNOWN"). -/
def tableLookup : List (Int × Int × MessageType) → Int → MessageType
  | [], _ => .UKNOWN
  | row :: rows, cob_id =>
      if row.1 ≤ cob_id ∧ cob_id ≤ row.2.1 then row.2.2
      else tableLookup rows cob_id

/-- Modelled from the spec: the identifier-to-FunctionCode map of Table 1
(section 4.2).  This is the SPEC side of claims C1/C6, compared against
`cob_id_to_type`, the code side. -/
def tableType (cob_id : Int) : MessageType :=
  tableLookup table1 cob_id

/-! # Raw frames and decoded messages (canmsg.py, `CANMsg`) -/

/-- A raw frame as read off the bus (the `pyvit.can.Frame` fields that
`CANMsg.__init__` consumes: `arb_id`, `data`, `is_extended_id`). -/
structure Frame where
  arb_id : Int
  data : List Nat
  is_extended_id : Bool
  deriving DecidableEq, Repr

/-- Python `hex()` on an integer, as used for `node_name = hex(self.arb_id)`
(canmsg.py line 113). -/
def pyHex (n : Int) : String :=
  if n < 0 then "-0x" ++ String.mk (Nat.toDigits 16 n.natAbs)
  else "0x" ++ String.mk (Nat.toDigits 16 n.toNat)

/-- A `CANMsg` (canmsg.py lines 85–167): the frame fields plus the interface
name, receipt timestamp, classified type, thresholds and display name.
Timestamps and timeouts are seconds, modelled as rationals (`total_seconds()`
yields a real-valued number; the constructor's threshold arguments are
numbers in seconds). -/
structure CANMsg where
  arb_id : Int
  data : List Nat
  interface : String
  timestamp : ℚ
  extended : Bool
  message_type : MessageType
  stale_timeout : ℚ
  dead_timeout : ℚ
  node_name : String
  deriving DecidableEq, Repr

/-- `CANMsg.__init__` (canmsg.py lines 90–113) with all arguments explicit.
`now` stands for the `datetime.datetime.now()` sampled at construction.
No validation of any kind is performed on the arguments. -/
def CANMsg.init (src : Frame) (interface : String) (now : ℚ)
    (stale_timeout : ℚ) (dead_timeout : ℚ) : CANMsg :=
  { arb_id := src.arb_id
    data := src.data
    interface := interface
    timestamp := now
    extended := src.is_extended_id
    message_type := MessageType.cob_id_to_type src.arb_id
    stale_timeout := stale_timeout
    dead_timeout := dead_timeout
    node_name := pyHex src.arb_id }

/-- `CANMsg.__init__` with the default thresholds of the source signature:
`stale_timeout: int = 6, dead_timeout: int = 12`. -/
def CANMsg.initDefault (src : Frame) (interface : String) (now : ℚ) : CANMsg :=
  CANMsg.init src interface now 6 12

/-- `CANMsg.is_stale` (canmsg.py lines 149–157):
`(now - timestamp).total_seconds() >= stale_timeout`. -/
def CANMsg.is_stale (msg : CANMsg) (now : ℚ) : Bool :=
  decide (msg.stale_timeout ≤ now - msg.timestamp)

/-- `CANMsg.is_dead` (canmsg.py lines 159–167):
`(now - timestamp).total_seconds() >= dead_timeout`. -/
def CANMsg.is_dead (msg : CANMsg) (now : ℚ) : Bool :=
  decide (msg.dead_timeout ≤ now - msg.timestamp)

/-- `CANMsg.status` (canmsg.py lines 136–147): `'DEAD'` if `is_dead()`, else
`'STALE'` if `is_stale()`, else `'ALIVE'`.  The source samples
`datetime.now()` separately in each predicate; the embedding evaluates both
at one instant `now`, which is the claims' reading ("for every time now"). -/
def CANMsg.status (msg : CANMsg) (now : ℚ) : String :=
  if msg.is_dead now then "DEAD"
  else if msg.is_stale now then "STALE"
  else "ALIVE"

/-- Severity order on status strings, for the monotonicity claim:
ALIVE < STALE < DEAD. -/
def severity (s : String) : Nat :=
  if s = "DEAD" then 2 else if s = "STALE" then 1 else 0

/-! # Bus multiplexer (src/canopen_monitor/can/magic_can_bus.py) -/

/-- Modelled from the spec: the Raw Interface Adapter (`Interface`, imported
in magic_can_bus.py from a sibling module absent from src/).  Per section 6
it "must be constructible from an interface name string alone"; only the
name is relevant to the claims here. -/
structure Interface where
  name : String
  deriving DecidableEq, Repr

/-- The `MagicCANBus` state (magic_can_bus.py lines 16–21): the interface
list, the `keep_alive` event (a boolean flag), the shared FIFO
(`queue.SimpleQueue`, modelled as a list with head = front), and the thread
list (`None` until `__enter__` runs; modelled by the worker names). -/
structure MagicCANBus where
  interfaces : List Interface
  keep_alive : Bool
  message_queue : List Frame
  threads : Option (List String)
  deriving DecidableEq, Repr

/-- `MagicCANBus.__init__` (magic_can_bus.py lines 16–21): builds one
`Interface` per name, sets `keep_alive`, creates an empty queue, leaves
`threads = None`.  The body contains no `raise` and no check of `if_names`
(no emptiness or duplicate test), so the `Except` error channel of this
fallible-constructor embedding is never used. -/
def MagicCANBus.init (if_names : List String) : Except String MagicCANBus :=
  .ok { interfaces := if_names.map (fun x => { name := x })
        keep_alive := true
        message_queue := []
        threads := none }

/-- `MagicCANBus.__exit__` (magic_can_bus.py lines 58–65): clears
`keep_alive`, then joins every thread in order.  Result: the updated state
and the list of threads joined. -/
def MagicCANBus.exit (bus : MagicCANBus) : MagicCANBus × List String :=
  ({ bus with keep_alive := false }, bus.threads.getD [])

/-- `MagicCANBus.__next__` (magic_can_bus.py lines 70–73): if the queue is
empty raise `StopIteration` (here `none`), else pop the front frame.  With
the single consumer of the design, `get(block=True)` on a non-empty
`SimpleQueue` returns at once; the function is total — it never waits. -/
def MagicCANBus.next (bus : MagicCANBus) : Option (Frame × MagicCANBus) :=
  if bus.message_queue.isEmpty then none
  else
    match bus.message_queue with
    | [] => none
    | f :: rest => some (f, { bus with message_queue := rest })

/-! # Worker handler as a transition system (magic_can_bus.py lines 31–51)

`MagicCANBus.handler` is a thread body; it is embedded as a small-step
transition system.  One step consumes one `WorkerInput` — the values the
body reads from its environment at that point (`keep_alive.is_set()`,
`iface.is_up`, and the outcome of `iface.recv()`) — and emits the adapter
calls made during that step. -/

/-- Outcome of one `iface.recv()` call: a frame, `None` (timeout), or a
raised `OSError`. -/
inductive RecvRes where
  | frame (f : Frame)
  | timeout
  | oserr
  deriving DecidableEq, Repr

/-- The environment values one handler step may read. -/
structure WorkerInput where
  keep_alive : Bool
  is_up : Bool
  recv : RecvRes
  deriving DecidableEq, Repr

/-- Program points of the handler body: the outer `while keep_alive` test
(line 37), the inner `while keep_alive and iface.is_up` test (line 44), the
`iface.recv()` call (line 45), and termination after `iface.stop()`
(line 51). -/
inductive WorkerPC where
  | outerCheck
  | innerCheck
  | doRecv
  | done
  deriving DecidableEq, Repr

/-- Adapter/queue calls a handler step can make. -/
inductive WorkerAct where
  | start
  | enqueue (f : Frame)
  | restart
  | stop
  deriving DecidableEq, Repr

/-- One step of the handler body:
* at the outer test, a cleared `keep_alive` leaves the loop and runs
  `iface.stop()` (line 51); otherwise control enters the inner loop;
* at the inner test, a cleared `keep_alive` or a down interface exits the
  inner loop and runs the `iface.restart()` of line 48, returning to the
  outer test; otherwise control reaches `recv()`;
* `recv()` yielding a frame enqueues it (line 47) and loops; yielding `None`
  just loops; raising `OSError` is caught at line 49 and runs the
  `iface.restart()` of line 50, returning to the outer test. -/
def workerStep : WorkerPC → WorkerInput → WorkerPC × List WorkerAct
  | .outerCheck, i => if i.keep_alive then (.innerCheck, []) else (.done, [.stop])
  | .innerCheck, i =>
      if i.keep_alive && i.is_up then (.doRecv, []) else (.outerCheck, [.restart])
  | .doRecv, i =>
      match i.recv with
      | .frame f => (.innerCheck, [.enqueue f])
      | .timeout => (.innerCheck, [])
      | .oserr => (.outerCheck, [.restart])
  | .done, _ => (.done, [])

/-- Run the handler from a program point through a list of inputs,
collecting the emitted actions. -/
def workerRun : WorkerPC → List WorkerInput → WorkerPC × List WorkerAct
  | pc, [] => (pc, [])
  | pc, i :: is =>
      let s := workerStep pc i
      let r := workerRun s.1 is
      (r.1, s.2 ++ r.2)

/-- The three environment reads of one full failed receive attempt while the
bus stays alive and the interface reports up: outer test, inner test, then
`recv()` raising `OSError`. -/
def errBlock : List WorkerInput :=
  [{ keep_alive := true, is_up := true, recv := .oserr },
   { keep_alive := true, is_up := true, recv := .oserr },
   { keep_alive := true, is_up := true, recv := .oserr }]

/-! # Protocol dispatcher (src/canopen_monitor/parser/canopen.py) -/

/-- The decoder invocation `CANOpenParser.parse` makes for one frame: which
sub-parser is called and with which arguments.  `eds` is the object
dictionary entry handed to the PDO/SDO parsers; `bad_parse` is the
`'BAD PARSE'` fallthrough.  `α` is the type of an EDS configuration entry. -/
inductive ParseCall (α : Type) where
  | sync (data : List Nat)
  | emcy (data : List Nat)
  | pdo (cob_id : Int) (eds : α) (data : List Nat)
  | sdo (cob_id : Int) (eds : α) (data : List Nat)
  | hb (data : List Nat)
  | bad_parse
  deriving DecidableEq, Repr

/-- `CANOpenParser.parse` (canopen.py lines 13–27), as the decoder call it
dispatches.  Branches in source order:
`cob_id <= 0x80` → SYNC; `0x80 <= cob_id < 0x180` → EMCY;
`0x180 <= cob_id < 0x580` → PDO with `self.eds_configs[0][0]`;
`0x580 <= cob_id < 0x700` → SDO with `self.eds_configs[0][0]`;
`0x700 <= cob_id < 0x7E4` → HB; otherwise the initial `'BAD PARSE'`.
`eds_configs[0][0]` raises `IndexError` on an empty configuration, surfaced
through `Except`. -/
def CANOpenParser.parse {α : Type} (cob_id : Int) (eds_configs : List (List α))
    (data : List Nat) : Except String (ParseCall α) :=
  if cob_id ≤ 0x80 then .ok (.sync data)
  else if 0x80 ≤ cob_id ∧ cob_id < 0x180 then .ok (.emcy data)
  else if 0x180 ≤ cob_id ∧ cob_id < 0x580 then
    match eds_configs.head?.bind List.head? with
    | some e => .ok (.pdo cob_id e data)
    | none => .error "IndexError"
  else if 0x580 ≤ cob_id ∧ cob_id < 0x700 then
    match eds_configs.head?.bind List.head? with
    | some e => .ok (.sdo cob_id e data)
    | none => .error "IndexError"
  else if 0x700 ≤ cob_id ∧ cob_id < 0x7E4 then .ok (.hb data)
  else .ok .bad_parse

/-! # Classifier lemmas -/

/-- `findType` falls through to `MessageType(15)` when no range matches. -/
theorem findType_eq_default (rs : List (Int × Int)) (i : Nat) (c : Int)
    (h : ∀ r ∈ rs, ¬(r.1 ≤ c ∧ c ≤ r.2)) :
    findType rs i c = MessageType.ofValue 15 := by
  induction rs generalizing i with
  | nil => rfl
  | cons r rs ih =>
      have hr := h r (List.mem_cons_self r rs)
      simp only [findType, if_neg hr]
      exact ih (i + 1) (fun x hx => h x (List.mem_cons_of_mem r hx))

/-- `tableLookup` falls through to `UKNOWN` when no row matches. -/
theorem tableLookup_eq_default (rows : List (Int × Int × MessageType)) (c : Int)
    (h : ∀ row ∈ rows, ¬(row.1 ≤ c ∧ c ≤ row.2.1)) :
    tableLookup rows c = MessageType.UKNOWN := by
  induction rows with
  | nil => rfl
  | cons row rows ih =>
      have hr := h row (List.mem_cons_self row rows)
      simp only [tableLookup, if_neg hr]
      exact ih (fun x hx => h x (List.mem_cons_of_mem row hx))

/-- Identifiers below 0x000 or above 0x7FF match no range of `node_ranges`,
so `cob_id_to_type` classifies them `UKNOWN`. -/
theorem cob_id_to_type_out_of_range (c : Int) (h : c < 0 ∨ 0x7FF < c) :
    MessageType.cob_id_to_type c = MessageType.UKNOWN := by
  apply findType_eq_default
  intro r hr
  fin_cases hr <;> dsimp only <;> omega

/-- Identifiers below 0x000 or above 0x7FF match no row of Table 1, so
`tableType` maps them to `UKNOWN`. -/
theorem tableType_out_of_range (c : Int) (h : c < 0 ∨ 0x7FF < c) :
    tableType c = MessageType.UKNOWN := by
  apply tableLookup_eq_default
  intro row hrow
  fin_cases hrow <;> dsimp only <;> omega

set_option maxRecDepth 20000 in
/-- Code agrees with Table 1 on every identifier 0x000–0x3FF. -/
theorem classifier_agrees_low :
    ∀ n : Fin 1024, MessageType.cob_id_to_type n.val = tableType n.val := by
  decide

set_option maxRecDepth 20000 in
/-- Code agrees with Table 1 on every identifier 0x400–0x7FF except 0x680
(which is 1024 + 640). -/
theorem classifier_agrees_high :
    ∀ n : Fin 1024, n.val ≠ 640 →
      MessageType.cob_id_to_type (n.val + 1024) = tableType (n.val + 1024) := by
  decide

/-- The classifier and Table 1 agree at every integer identifier other than
0x680: the sole divergence between code and spec table is the SDO_RX upper
bound. -/
theorem classifier_agrees_except_0x680 (c : Int) (h : c ≠ 0x680) :
    MessageType.cob_id_to_type c = tableType c := by
  by_cases h0 : 0 ≤ c ∧ c < 2048
  · have hc : c = ((c.toNat : Nat) : Int) := (Int.toNat_of_nonneg h0.1).symm
    by_cases h1 : c.toNat < 1024
    · rw [hc]
      exact classifier_agrees_low ⟨c.toNat, h1⟩
    · have h2 : c.toNat - 1024 < 1024 := by omega
      have h3 : (c.toNat - 1024) + 1024 = c.toNat := by omega
      have h4 : c.toNat - 1024 ≠ 640 := by omega
      have := classifier_agrees_high ⟨c.toNat - 1024, h2⟩ h4
      rw [hc, ← h3]
      exact this
  · have hout : c < 0 ∨ 0x7FF < c := by omega
    rw [cob_id_to_type_out_of_range c hout, tableType_out_of_range c hout]

/-! # Claims about the classifier -/

/-- C1: the classifier follows Table 1 on 0x000–0x7FF with UNKNOWN off-table.
FALSE at 0x680: the source range row is `(0x600, 0x680)` where Table 1 (and
CiA 301, which every other row follows) caps SDO_RX at 0x67F — an off-by-one
in the code.  Evaluating the code at the failing input: 0x680 classifies as
SDO_RX, while Table 1 puts it in no row, mandating UNKNOWN.  Everywhere else
the classifier agrees with the table (`classifier_agrees_except_0x680`). -/
theorem c1_sdo_rx_upper_bound_bug :
    MessageType.cob_id_to_type 0x680 = MessageType.SDO_RX ∧
    tableType 0x680 = MessageType.UKNOWN ∧
    MessageType.SDO_RX ≠ MessageType.UKNOWN :=
  ⟨rfl, rfl, by decide⟩

/-- C6 counterexample: the claim says identifier 0x17F classifies as SYNC;
the code classifies it as UKNOWN (0x17F lies in no row of `node_ranges`,
whose SYNC row ends at 0x07F — as does the spec's own Table 1). -/
theorem c6_0x17F_counterexample :
    MessageType.cob_id_to_type 0x17F ≠ MessageType.SYNC := by
  decide

/-- C6 amended: the classifier maps identifier 0x17F to UNKNOWN (not SYNC —
0x17F is in no Table 1 row) and identifier 0x180 to PDO1_TX. -/
theorem c6_boundary_amended :
    MessageType.cob_id_to_type 0x17F = MessageType.UKNOWN ∧
    MessageType.cob_id_to_type 0x180 = MessageType.PDO1_TX :=
  ⟨rfl, rfl⟩

/-- C10: the classifier is total over all integers; every identifier outside
0x000–0x7FF (negative, or above 0x7FF such as an extended 29-bit id) yields
UNKNOWN — no range matches, and the fallthrough returns `MessageType(15)`. -/
theorem c10_classifier_total_out_of_range (c : Int) (h : c < 0 ∨ 0x7FF < c) :
    MessageType.cob_id_to_type c = MessageType.UKNOWN :=
  cob_id_to_type_out_of_range c h

/-- C10 witness: concrete out-of-range identifiers −1 and 0x1FFFFFFF. -/
theorem c10_classifier_total_witness :
    MessageType.cob_id_to_type (-1) = MessageType.UKNOWN ∧
    MessageType.cob_id_to_type 0x1FFFFFFF = MessageType.UKNOWN :=
  ⟨c10_classifier_total_out_of_range (-1) (Or.inl (by norm_num)),
   c10_classifier_total_out_of_range 0x1FFFFFFF (Or.inr (by norm_num))⟩

/-- C3: the claim says `cob_id_to_node_id` returns identifier − base for
node-carrying function codes and `None` (not an exception) otherwise.  The
code instead raises `AttributeError` on EVERY call: it iterates over
`MessageType.NODE_RANGES`, an attribute no code in the repository ever
defines (the ranges list is a local of `cob_id_to_type`).  Evaluating the
code at the failing input 0x201 (a PDO1_RX frame, whose node id the claim
says is 1): the call errors instead of returning 1. -/
theorem c3_node_id_attribute_error :
    MessageType.cob_id_to_node_id 0x201 =
      Except.error "AttributeError: NODE_RANGES" ∧
    MessageType.cob_id_to_node_id 0x201 ≠ Except.ok (some 1) :=
  ⟨rfl, by intro h; exact Except.noConfusion h⟩

/-! # Claims about the liveness tracker -/

/-- C5: a message's liveness status at time `now` is DEAD when
`now − timestamp ≥ dead_timeout`, else STALE when
`now − timestamp ≥ stale_timeout`, else ALIVE; and a message built with the
constructor's defaults carries `stale_timeout = 6` and `dead_timeout = 12`
seconds. -/
theorem c5_liveness_status_and_defaults (src : Frame) (iface : String) (t : ℚ)
    (msg : CANMsg) (now : ℚ) :
    (CANMsg.initDefault src iface t).stale_timeout = 6 ∧
    (CANMsg.initDefault src iface t).dead_timeout = 12 ∧
    msg.status now =
      (if msg.dead_timeout ≤ now - msg.timestamp then "DEAD"
       else if msg.stale_timeout ≤ now - msg.timestamp then "STALE"
       else "ALIVE") := by
  refine ⟨rfl, rfl, ?_⟩
  simp only [CANMsg.status, CANMsg.is_dead, CANMsg.is_stale, decide_eq_true_eq]

/-- Severity of a message's status, as the nested conditional on its age. -/
theorem severity_status (msg : CANMsg) (now : ℚ) :
    severity (msg.status now) =
      (if msg.dead_timeout ≤ now - msg.timestamp then 2
       else if msg.stale_timeout ≤ now - msg.timestamp then 1
       else 0) := by
  by_cases hd : msg.dead_timeout ≤ now - msg.timestamp
  · simp [CANMsg.status, CANMsg.is_dead, CANMsg.is_stale, severity, hd]
  · by_cases hs : msg.stale_timeout ≤ now - msg.timestamp
    · simp [CANMsg.status, CANMsg.is_dead, CANMsg.is_stale, severity, hd, hs]
    · simp [CANMsg.status, CANMsg.is_dead, CANMsg.is_stale, severity, hd, hs]

/-- C8: with the default thresholds 6 s / 12 s, a message is ALIVE at its
own timestamp, STALE exactly 6 s later and DEAD exactly 12 s later; and for
every message and pair of times `now1 ≤ now2` the severity of the status
(ALIVE < STALE < DEAD) never decreases as time advances. -/
theorem c8_liveness_boundaries_and_monotone (src : Frame) (iface : String)
    (t : ℚ) (msg : CANMsg) (now1 now2 : ℚ) (h : now1 ≤ now2) :
    (CANMsg.initDefault src iface t).status t = "ALIVE" ∧
    (CANMsg.initDefault src iface t).status (t + 6) = "STALE" ∧
    (CANMsg.initDefault src iface t).status (t + 12) = "DEAD" ∧
    severity (msg.status now1) ≤ severity (msg.status now2) := by
  have e0 : t - t = (0 : ℚ) := by ring
  have e6 : t + 6 - t = (6 : ℚ) := by ring
  have e12 : t + 12 - t = (12 : ℚ) := by ring
  refine ⟨?_, ?_, ?_, ?_⟩
  · simp only [CANMsg.initDefault, CANMsg.init, CANMsg.status, CANMsg.is_dead,
      CANMsg.is_stale, e0, decide_eq_true_eq]
    norm_num
  · simp only [CANMsg.initDefault, CANMsg.init, CANMsg.status, CANMsg.is_dead,
      CANMsg.is_stale, e6, decide_eq_true_eq]
    norm_num
  · simp only [CANMsg.initDefault, CANMsg.init, CANMsg.status, CANMsg.is_dead,
      CANMsg.is_stale, e12, decide_eq_true_eq]
    norm_num
  · rw [severity_status, severity_status]
    split_ifs <;> linarith

/-- C8 witness: the default-threshold message stamped at 0 is ALIVE at 0,
STALE at 6, DEAD at 12, and its severity at 0 is at most its severity
at 1. -/
theorem c8_liveness_witness :
    (CANMsg.initDefault ⟨0x181, [], false⟩ "vcan0" 0).status 0 = "ALIVE" ∧
    (CANMsg.initDefault ⟨0x181, [], false⟩ "vcan0" 0).status (0 + 6) = "STALE" ∧
    (CANMsg.initDefault ⟨0x181, [], false⟩ "vcan0" 0).status (0 + 12) = "DEAD" ∧
    severity ((CANMsg.initDefault ⟨0x181, [], false⟩ "vcan0" 0).status 0) ≤
      severity ((CANMsg.initDefault ⟨0x181, [], false⟩ "vcan0" 0).status 1) :=
  c8_liveness_boundaries_and_monotone ⟨0x181, [], false⟩ "vcan0" 0
    (CANMsg.initDefault ⟨0x181, [], false⟩ "vcan0" 0) 0 1 (by norm_num)

/-! # Claims about construction -/

/-- C4 counterexample: the claim says construction fails with `ConfigError`
on an empty interface set, a duplicated interface name, or
`dead_timeout < stale_timeout`.  No `ConfigError` exists in the repository
and neither constructor validates anything: the empty list and the
duplicated list both construct a bus, and a message accepts
`dead_timeout = 6 < 12 = stale_timeout`. -/
theorem c4_no_validation_counterexample :
    MagicCANBus.init [] =
      Except.ok { interfaces := [], keep_alive := true,
                  message_queue := [], threads := none } ∧
    MagicCANBus.init ["vcan0", "vcan0"] =
      Except.ok { interfaces := [{ name := "vcan0" }, { name := "vcan0" }],
                  keep_alive := true, message_queue := [], threads := none } ∧
    (CANMsg.init ⟨0x181, [], false⟩ "vcan0" 0 12 6).stale_timeout = 12 ∧
    (CANMsg.init ⟨0x181, [], false⟩ "vcan0" 0 12 6).dead_timeout = 6 :=
  ⟨rfl, rfl, rfl, rfl⟩

/-- C4 amended: construction never fails and performs no validation — every
interface-name list (empty or duplicated included) yields a bus whose
interfaces mirror the list, and message construction accepts every
threshold pair, including `dead_timeout < stale_timeout`, storing it
verbatim. -/
theorem c4_construction_never_fails (if_names : List String) (src : Frame)
    (iface : String) (now stale dead : ℚ) :
    (∃ bus, MagicCANBus.init if_names = Except.ok bus ∧
        bus.interfaces = if_names.map (fun x => { name := x }) ∧
        bus.keep_alive = true ∧ bus.message_queue = [] ∧ bus.threads = none) ∧
    (CANMsg.init src iface now stale dead).stale_timeout = stale ∧
    (CANMsg.init src iface now stale dead).dead_timeout = dead :=
  ⟨⟨_, rfl, rfl, rfl, rfl, rfl⟩, rfl, rfl⟩

/-! # Claims about the bus multiplexer consumer side -/

/-- C9: the consumer-facing dequeue returns "empty" (raises
`StopIteration`) exactly on an empty queue and otherwise pops the front
frame; it is a total function of the bus state — there is no path on which
it waits. -/
theorem c9_next_nonblocking (bus : MagicCANBus) :
    (bus.message_queue = [] → bus.next = none) ∧
    ∀ f rest, bus.message_queue = f :: rest →
      bus.next = some (f, { bus with message_queue := rest }) := by
  constructor
  · intro h
    simp [MagicCANBus.next, h]
  · intro f rest h
    simp [MagicCANBus.next, h]

/-- C9 witness: on a concrete bus, the empty queue yields `none` and a
one-frame queue yields that frame and the emptied bus. -/
theorem c9_next_witness :
    ({ interfaces := [], keep_alive := true, message_queue := [],
       threads := none } : MagicCANBus).next = none ∧
    ({ interfaces := [], keep_alive := true,
       message_queue := [⟨0x181, [1], false⟩],
       threads := none } : MagicCANBus).next =
      some (⟨0x181, [1], false⟩,
        { interfaces := [], keep_alive := true, message_queue := [],
          threads := none }) :=
  ⟨(c9_next_nonblocking _).1 rfl,
   (c9_next_nonblocking _).2 ⟨0x181, [1], false⟩ [] rfl⟩

/-! # Claims about the protocol dispatcher -/

/-- C2: the claim says frames are routed per Table 1 (0x080–0x0FF to EMCY,
0x700–0x7FF to heartbeat) and PDO frames decoded with the dictionary of the
SENDING node.  Evaluating the code at the failing inputs: identifier 0x080
(an EMCY frame) is routed to the SYNC decoder by the `cob_id <= 0x80`
branch; identifier 0x7E4 (a heartbeat frame) falls past the
`cob_id < 0x7E4` bound and is not decoded at all; and PDO frames from two
DIFFERENT nodes (0x181 from node 1, 0x182 from node 2) are both decoded
with the fixed entry `eds_configs[0][0]`, ignoring the sender. -/
theorem c2_dispatch_code_bug :
    CANOpenParser.parse 0x80 [["eds-entry-0"], ["eds-entry-1"]] [0, 1] =
      Except.ok (ParseCall.sync [0, 1]) ∧
    CANOpenParser.parse 0x7E4 [["eds-entry-0"], ["eds-entry-1"]] [5] =
      Except.ok ParseCall.bad_parse ∧
    CANOpenParser.parse 0x181 [["eds-entry-0"], ["eds-entry-1"]] [] =
      Except.ok (ParseCall.pdo 0x181 "eds-entry-0" []) ∧
    CANOpenParser.parse 0x182 [["eds-entry-0"], ["eds-entry-1"]] [] =
      Except.ok (ParseCall.pdo 0x182 "eds-entry-0" []) :=
  ⟨rfl, rfl, rfl, rfl⟩

/-! # Claims about the worker handler -/

/-- Running the handler over concatenated input lists composes. -/
theorem workerRun_append (pc : WorkerPC) (xs ys : List WorkerInput) :
    workerRun pc (xs ++ ys) =
      ((workerRun (workerRun pc xs).1 ys).1,
       (workerRun pc xs).2 ++ (workerRun (workerRun pc xs).1 ys).2) := by
  induction xs generalizing pc with
  | nil => simp [workerRun]
  | cons x xs ih =>
      simp [workerRun, ih (workerStep pc x).1, List.append_assoc]

/-- `n` consecutive failed receive attempts leave the worker at the outer
test having emitted exactly `n` restart calls. -/
theorem workerRun_errBlocks (n : Nat) :
    workerRun WorkerPC.outerCheck (List.flatten (List.replicate n errBlock)) =
      (WorkerPC.outerCheck, List.replicate n WorkerAct.restart) := by
  induction n with
  | zero => rfl
  | succ n ih =>
      have hstep : workerRun WorkerPC.outerCheck errBlock =
          (WorkerPC.outerCheck, [WorkerAct.restart]) := rfl
      rw [List.replicate_succ, List.flatten_cons, workerRun_append, hstep]
      simp [ih, List.replicate_succ]

/-- C7: (i) `n` consecutive `recv()` I/O errors while the bus stays alive
produce exactly `n` `restart()` calls and return the worker to its outer
test — it is not terminated; (ii) no step taken while the keep-alive signal
is set reaches the terminated state; (iii) the only transition into the
terminated state happens at the outer test with the keep-alive signal
cleared, and it performs exactly the adapter `stop()` call; (iv) the
context-manager exit clears the keep-alive flag and joins every worker
thread. -/
theorem c7_worker_recovery_and_shutdown (n : Nat) (pc : WorkerPC)
    (i : WorkerInput) (bus : MagicCANBus) (ts : List String)
    (hpc : pc ≠ WorkerPC.done) (hts : bus.threads = some ts) :
    workerRun WorkerPC.outerCheck (List.flatten (List.replicate n errBlock)) =
      (WorkerPC.outerCheck, List.replicate n WorkerAct.restart) ∧
    (i.keep_alive = true → (workerStep pc i).1 ≠ WorkerPC.done) ∧
    ((workerStep pc i).1 = WorkerPC.done →
      i.keep_alive = false ∧ (workerStep pc i).2 = [WorkerAct.stop]) ∧
    bus.exit.1.keep_alive = false ∧ bus.exit.2 = ts := by
  refine ⟨workerRun_errBlocks n, ?_, ?_, ?_, ?_⟩
  · intro hka
    cases pc with
    | outerCheck => simp [workerStep, hka]
    | innerCheck => cases hu : i.is_up <;> simp [workerStep, hka, hu]
    | doRecv => cases hr : i.recv <;> simp [workerStep, hr]
    | done => exact absurd rfl hpc
  · intro hdone
    cases pc with
    | outerCheck =>
        cases hka : i.keep_alive
        · simp [workerStep, hka]
        · simp [workerStep, hka] at hdone
    | innerCheck =>
        cases hka : i.keep_alive <;> cases hu : i.is_up <;>
          simp [workerStep, hka, hu] at hdone
    | doRecv => cases hr : i.recv <;> simp [workerStep, hr] at hdone
    | done => exact absurd rfl hpc
  · simp [MagicCANBus.exit]
  · simp [MagicCANBus.exit, hts]

/-- C7 witness: two consecutive receive errors yield two restarts; a step at
the receive point with the keep-alive signal set does not terminate; a
concrete bus's exit clears keep-alive and joins its one thread. -/
theorem c7_worker_recovery_witness :
    workerRun WorkerPC.outerCheck (List.flatten (List.replicate 2 errBlock)) =
      (WorkerPC.outerCheck, List.replicate 2 WorkerAct.restart) ∧
    (({ keep_alive := true, is_up := true, recv := RecvRes.oserr }
        : WorkerInput).keep_alive = true →
      (workerStep WorkerPC.doRecv
        { keep_alive := true, is_up := true, recv := RecvRes.oserr }).1 ≠
        WorkerPC.done) ∧
    ((workerStep WorkerPC.doRecv
        { keep_alive := true, is_up := true, recv := RecvRes.oserr }).1 =
        WorkerPC.done →
      ({ keep_alive := true, is_up := true, recv := RecvRes.oserr }
        : WorkerInput).keep_alive = false ∧
      (workerStep WorkerPC.doRecv
        { keep_alive := true, is_up := true, recv := RecvRes.oserr }).2 =
        [WorkerAct.stop]) ∧
    ({ interfaces := [], keep_alive := true, message_queue := [],
       threads := some ["w0"] } : MagicCANBus).exit.1.keep_alive = false ∧
    ({ interfaces := [], keep_alive := true, message_queue := [],
       threads := some ["w0"] } : MagicCANBus).exit.2 = ["w0"] :=
  c7_worker_recovery_and_shutdown 2 WorkerPC.doRecv
    { keep_alive := true, is_up := true, recv := RecvRes.oserr }
    { interfaces := [], keep_alive := true, message_queue := [],
      threads := some ["w0"] }
    ["w0"] (by decide) rfl

end CanopenMonitor
